import Mathlib

/-!
# Shallow embedding of the api_yamdb auth/review core

This file embeds, in Lean 4, the authentication and review-uniqueness core of
the `api_yamdb` repository: `api/serializers.py` (`UserSignupSerializer`,
`UserTokenSerializer`, `ReviewSerializer`) and `api/views.py`
(`UserSignupView`, `UserTokenView`, `ReviewViewSet`).

Modelling conventions:
* The Django ORM store (User and Review tables) becomes an explicit `Store`
  record threaded through every operation; each endpoint is a pure function
  `input → Store → Except ApiError output × Store`.
* Django's `django.contrib.auth.tokens.default_token_generator`
  (`PasswordResetTokenGenerator`) is stateless: `make_token(user)` HMACs the
  user's hash state `(pk, password, last_login, email)` together with a
  timestamp, and `check_token(user, token)` recomputes that HMAC from the
  timestamp embedded in the token and checks the token's age against
  `PASSWORD_RESET_TIMEOUT`.  The HMAC is modelled as an ideal (injective)
  MAC: the mac value is the pair of its inputs.  Nothing is ever persisted
  by the generator.
* DRF field-level deserialization (e-mail format, max_length) is upstream
  HTTP glue and is outside the embedding: operations receive the already
  deserialized `(username, email)` strings.
* `rest_framework_simplejwt.RefreshToken.for_user(u).access_token` is a JWT
  whose identity claim is `u.pk`; it is modelled as a record carrying that
  embedded identity.
-/

/-- The error taxonomy the two serializer/view files raise:
`serializers.ValidationError` (DRF turns it into a 400 response) and the
`Http404` raised by `get_object_or_404` (DRF turns it into a 404 response). -/
inductive ApiError where
  | ValidationError (msg : String)
  | NotFound
deriving DecidableEq, Repr

/-- The inputs of `PasswordResetTokenGenerator._make_hash_value` other than
the timestamp: `user.pk`, `user.password`, `user.last_login` and
`user.email`.  (`is_active` is *not* part of the hash state.) -/
structure HashState where
  pk : Nat
  password : String
  lastLogin : Option Nat
  email : String
deriving DecidableEq, Repr

/-- A confirmation code produced by `default_token_generator.make_token`:
the token string embeds the timestamp `ts` and an HMAC over the user's hash
state and `ts`.  The HMAC is modelled as an ideal MAC, i.e. the pair of its
inputs. -/
structure ConfirmationCode where
  ts : Nat
  mac : HashState × Nat
deriving DecidableEq, Repr

/-- A stored `users.models.User` row, restricted to the fields the embedded
code reads or writes.  `confirmation_code` is the model field listed in
`UserTokenSerializer.Meta.fields`; the code in `src/` never assigns it. -/
structure UserRec where
  pk : Nat
  username : String
  email : String
  password : String
  lastLogin : Option Nat
  isActive : Bool
  confirmation_code : String
deriving DecidableEq, Repr

/-- A stored `reviews.models.Review` row, restricted to what
`ReviewSerializer.validate` and `ReviewViewSet.perform_create` touch:
the `(title, author)` pair plus payload. -/
structure ReviewRec where
  id : Nat
  title : Nat
  author : Nat
  text : String
  score : Nat
deriving DecidableEq, Repr

/-- The persistent store: the User and Review tables, the Title pk set
(only existence is consulted, via `get_object_or_404(Title, id=title_id)`),
auto-increment counters, and the outbox of `user.email_user(...)` calls:
`(recipient email, confirmation code carried in the message body)`. -/
structure Store where
  users : List UserRec
  reviews : List ReviewRec
  titles : List Nat
  nextUserPk : Nat
  nextReviewId : Nat
  outbox : List (String × ConfirmationCode)
deriving DecidableEq, Repr

/-- The value of `PasswordResetTokenGenerator._make_hash_value` minus the
timestamp. -/
def hashStateOf (u : UserRec) : HashState :=
  ⟨u.pk, u.password, u.lastLogin, u.email⟩

/-- Django's `settings.PASSWORD_RESET_TIMEOUT` default (3 days, in
seconds); the repository does not override it. -/
def PASSWORD_RESET_TIMEOUT : Nat := 259200

/-- Model of `default_token_generator.make_token(user)` at current time `now`
(seconds since the generator's epoch). -/
def make_token (u : UserRec) (now : Nat) : ConfirmationCode :=
  ⟨now, (hashStateOf u, now)⟩

/-- Model of `default_token_generator.check_token(user, token)` at current time
`now`: recompute the MAC from the timestamp embedded in the token and
compare, then check the token's age against `PASSWORD_RESET_TIMEOUT`.
(Natural subtraction matches Python here: a timestamp in the future gives a
non-positive age, which passes the age check in both.) -/
def check_token (u : UserRec) (c : ConfirmationCode) (now : Nat) : Bool :=
  c.mac == (hashStateOf u, c.ts) && now - c.ts ≤ PASSWORD_RESET_TIMEOUT

/-- Model of `UserSignupSerializer.validate` (serializers.py lines 81-102):
reject username `"me"`, then an existing row with the same email but a
different username, then an existing row with the same username but a
different email. -/
def UserSignupSerializer.validate (store : Store) (username email : String) :
    Except ApiError Unit :=
  if username == "me" then
    .error (.ValidationError "Нельзя создать пользователя me!")
  else if store.users.any (fun u => u.email == email && !(u.username == username)) then
    .error (.ValidationError "Указанный email уже существует!")
  else if store.users.any (fun u => u.username == username && !(u.email == email)) then
    .error (.ValidationError "Указанный username уже существует!")
  else
    .ok ()

/-- The fresh row inserted by the create half of `get_or_create`, with the
model defaults (`dflt` is the `is_active` default of the `users.models.User`
model, which is not under `src/`; every result below holds for either
value). -/
def freshUser (dflt : Bool) (store : Store) (username email : String) : UserRec :=
  { pk := store.nextUserPk, username := username, email := email,
    password := "", lastLogin := none, isActive := dflt,
    confirmation_code := "" }

/-- Model of `User.objects.get_or_create(username=..., email=...)`: reuse the
first row matching both fields, else insert a fresh row.
Returns `(user, created, store)` exactly as the Django call does. -/
def get_or_create (dflt : Bool) (store : Store) (username email : String) :
    UserRec × Bool × Store :=
  match store.users.find? (fun u => u.username == username && u.email == email) with
  | some u => (u, false, store)
  | none =>
      let u : UserRec := freshUser dflt store username email
      (u, true, { store with users := store.users ++ [u],
                             nextUserPk := store.nextUserPk + 1 })

/-- Model of `user.save()`: overwrite the row with the same pk. -/
def saveUser (store : Store) (u : UserRec) : Store :=
  { store with users := store.users.map (fun v => if v.pk == u.pk then u else v) }

/-- The body of a signup response: `serializer.data` for
`UserSignupSerializer.Meta.fields = ('username', 'email')`, i.e. exactly
those two fields read off the saved instance. -/
structure SignupResponse where
  status : Nat
  body : List (String × String)
deriving DecidableEq, Repr

/-- Endpoint `POST /signup` end to end: `UserSignupView.create` (views.py lines
111-118) runs `serializer.is_valid(raise_exception=True)` — i.e.
`UserSignupSerializer.validate` — then `UserSignupSerializer.create`
(serializers.py lines 104-115): get-or-create, `user.is_active = not
created or user.is_active`, `user.save()`, a fresh
`default_token_generator.make_token(user)` dispatched by
`user.email_user`, and a `Response(serializer.data, status=HTTP_200_OK)`.
On a validation error the store is returned untouched (DRF answers 400
before `create` runs). -/
def requestSignup (dflt : Bool) (now : Nat) (store : Store) (username email : String) :
    Except ApiError (SignupResponse × ConfirmationCode) × Store :=
  match UserSignupSerializer.validate store username email with
  | .error e => (.error e, store)
  | .ok _ =>
      let r := get_or_create dflt store username email
      let u0 := r.1
      let created := r.2.1
      let store1 := r.2.2
      let u1 := { u0 with isActive := !created || u0.isActive }
      let store2 := saveUser store1 u1
      let code := make_token u1 now
      let store3 := { store2 with outbox := store2.outbox ++ [(u1.email, code)] }
      (.ok (⟨200, [("username", u1.username), ("email", u1.email)]⟩, code), store3)

/-- The access credential minted by
`RefreshToken.for_user(obj).access_token`: a signed JWT whose identity
claim (`user_id`) is the user's pk. -/
structure AccessToken where
  userId : Nat
deriving DecidableEq, Repr

/-- Model of `UserTokenSerializer.get_token` (serializers.py lines 132-134). -/
def UserTokenSerializer.get_token (u : UserRec) : AccessToken :=
  ⟨u.pk⟩

/-- The body of a token response: `serializer.data` for
`UserTokenSerializer.Meta.fields = ('username', 'confirmation_code',
'token')`, read off the instance returned by `create`, plus the HTTP
status. -/
structure TokenResponse where
  status : Nat
  username : String
  confirmation_code : String
  token : AccessToken
deriving DecidableEq, Repr

/-- Endpoint `POST /token` end to end: `UserTokenView` is a plain `CreateAPIView`
(views.py lines 121-124), so DRF's `CreateModelMixin.create` runs
`UserTokenSerializer.validate` (serializers.py lines 136-144):
`get_object_or_404(User, username=...)` — `Http404` when absent — then
`default_token_generator.check_token`, raising `ValidationError` on
mismatch; on success `UserTokenSerializer.create` fetches the same user
and the mixin answers with `serializer.data` and the *default*
`status.HTTP_201_CREATED` (the view does not override `create`).
No store mutation happens on any path. -/
def exchangeCode (now : Nat) (store : Store) (username : String) (code : ConfirmationCode) :
    Except ApiError TokenResponse × Store :=
  match store.users.find? (fun u => u.username == username) with
  | none => (.error .NotFound, store)
  | some u =>
      if check_token u code now then
        (.ok ⟨201, u.username, u.confirmation_code, UserTokenSerializer.get_token u⟩, store)
      else
        (.error (.ValidationError "Некорректный confirmation_code!"), store)

/-- Endpoint `POST` of a review: `ReviewSerializer.validate` (serializers.py lines
42-51) first — `Review.objects.filter(title=(title_id,), author=author)
.exists()`; Django's related-field lookup normalisation unwraps the
accidental 1-tuple `(title_id,)` back to `title_id`, so the filter is by
the `(title, author)` pair — raising `ValidationError` on a duplicate;
then `ReviewViewSet.perform_create` (views.py lines 80-83):
`get_object_or_404(Title, id=title_id)` and the insert with
`author=request.user, title=title`. -/
def createReview (store : Store) (titleId : Nat) (authorPk : Nat)
    (text : String) (score : Nat) : Except ApiError ReviewRec × Store :=
  if store.reviews.any (fun r => r.title == titleId && r.author == authorPk) then
    (.error (.ValidationError "Вы уже оставляли отзыв на это произведение."), store)
  else if store.titles.contains titleId then
    let r : ReviewRec := ⟨store.nextReviewId, titleId, authorPk, text, score⟩
    (.ok r, { store with reviews := store.reviews ++ [r],
                         nextReviewId := store.nextReviewId + 1 })
  else
    (.error .NotFound, store)

deriving instance DecidableEq for Except

/-! ## Sample data for witnesses and counterexamples -/

/-- A stored user, active, as left behind by a completed signup. -/
def sampleUser : UserRec :=
  { pk := 1, username := "alice", email := "a@x.com", password := "",
    lastLogin := none, isActive := true, confirmation_code := "" }

/-- A one-user store with one catalog title. -/
def sampleStore : Store :=
  { users := [sampleUser], reviews := [], titles := [5],
    nextUserPk := 2, nextReviewId := 1, outbox := [] }

/-- A submitted confirmation code that was never issued for `sampleUser`:
its MAC is bound to a different hash state. -/
def badCode : ConfirmationCode := ⟨0, (⟨99, "x", none, "z@z.com"⟩, 0)⟩

/-- A store in which `"alice"` (pk 1) has already reviewed title 5. -/
def reviewedStore : Store :=
  { sampleStore with reviews := [⟨1, 5, 1, "good", 8⟩], nextReviewId := 2 }

/-- A stored user carrying the reserved username `"me"` (such a row cannot
be created through signup, but the admin user-management endpoint imposes no
such restriction). -/
def meUser : UserRec :=
  { pk := 1, username := "me", email := "m@x.com", password := "",
    lastLogin := none, isActive := true, confirmation_code := "" }

/-- A one-user store whose only user is named `"me"`. -/
def meStore : Store :=
  { users := [meUser], reviews := [], titles := [],
    nextUserPk := 2, nextReviewId := 1, outbox := [] }

/-- The user `"alice"` with `is_active` cleared. -/
def inactiveUser : UserRec := { sampleUser with isActive := false }

/-- A store holding only the deactivated `"alice"`. -/
def inactiveStore : Store := { sampleStore with users := [inactiveUser] }

/-- The store after `"alice"` re-signs up at time 0. -/
def storeAfterFirstSignup : Store :=
  (requestSignup true 0 sampleStore "alice" "a@x.com").2

/-- The store after `"alice"` re-signs up a second time, at time 5. -/
def storeAfterSecondSignup : Store :=
  (requestSignup true 5 storeAfterFirstSignup "alice" "a@x.com").2

/-- The store after the deactivated `"alice"` re-signs up. -/
def reactivatedStore : Store :=
  (requestSignup true 0 inactiveStore "alice" "a@x.com").2

/-- The store after a brand-new `"bob"` signs up. -/
def createdStore : Store :=
  (requestSignup true 0 sampleStore "bob" "b@x.com").2

/-! ## Helper lemmas -/

/-- Characterisation of the success path of `UserSignupSerializer.validate`:
the username is not the reserved `"me"`, every stored row with the requested
email has the requested username, and every stored row with the requested
username has the requested email. -/
theorem validate_ok_iff (store : Store) (username email : String) :
    UserSignupSerializer.validate store username email = .ok () ↔
      (username ≠ "me" ∧
        (∀ v ∈ store.users, v.email = email → v.username = username) ∧
        (∀ v ∈ store.users, v.username = username → v.email = email)) := by
  unfold UserSignupSerializer.validate
  constructor
  · intro h
    split at h
    · exact absurd h (by simp)
    · split at h
      · exact absurd h (by simp)
      · split at h
        · exact absurd h (by simp)
        · rename_i hme hemail husername
          refine ⟨by simpa using hme, ?_, ?_⟩
          · intro v hv he
            by_contra hne
            exact hemail (List.any_eq_true.mpr ⟨v, hv, by simp [he, hne]⟩)
          · intro v hv hu
            by_contra hne
            exact husername (List.any_eq_true.mpr ⟨v, hv, by simp [hu, hne]⟩)
  · rintro ⟨hme, hemail, husername⟩
    rw [if_neg (by simpa using hme), if_neg, if_neg]
    · simp only [List.any_eq_true, not_exists]
      rintro v ⟨hv, hpred⟩
      simp only [Bool.and_eq_true, beq_iff_eq, Bool.not_eq_true'] at hpred
      exact absurd (husername v hv hpred.1) (by simpa using hpred.2)
    · simp only [List.any_eq_true, not_exists]
      rintro v ⟨hv, hpred⟩
      simp only [Bool.and_eq_true, beq_iff_eq, Bool.not_eq_true'] at hpred
      exact absurd (hemail v hv hpred.1) (by simpa using hpred.2)

/-- On conflicting input, `UserSignupSerializer.validate` fails with some
`ValidationError`. -/
theorem validate_error_of_conflict (store : Store) (username email : String)
    (h : ∃ v ∈ store.users,
          (v.email = email ∧ v.username ≠ username) ∨
          (v.username = username ∧ v.email ≠ email)) :
    ∃ msg, UserSignupSerializer.validate store username email =
      .error (.ValidationError msg) := by
  unfold UserSignupSerializer.validate
  split
  · exact ⟨_, rfl⟩
  · split
    · exact ⟨_, rfl⟩
    · split
      · exact ⟨_, rfl⟩
      · rename_i hemail husername
        exfalso
        obtain ⟨v, hv, hcase⟩ := h
        rcases hcase with ⟨he, hu⟩ | ⟨hu, he⟩
        · exact hemail (List.any_eq_true.mpr ⟨v, hv, by simp [he, hu]⟩)
        · exact husername (List.any_eq_true.mpr ⟨v, hv, by simp [he, hu]⟩)

/-- Replacing, in a list, every row carrying the pk of `u1` by `u1` moves
`find?` from the first witness `u0` (which carries that pk) to `u1`,
provided `u1` itself satisfies the predicate. -/
theorem find?_map_replace {l : List UserRec} {p : UserRec → Bool} {u0 u1 : UserRec}
    (h : l.find? p = some u0) (hpk : u0.pk = u1.pk) (hp : p u1 = true) :
    (l.map (fun v => if v.pk == u1.pk then u1 else v)).find? p = some u1 := by
  induction l with
  | nil => simp at h
  | cons a t ih =>
      simp only [List.map_cons]
      by_cases ha : a.pk = u1.pk
      · rw [if_pos (by simpa using ha)]
        exact List.find?_cons_of_pos _ hp
      · rw [if_neg (by simpa using ha)]
        by_cases hpa : p a = true
        · rw [List.find?_cons_of_pos _ hpa] at h
          injection h with h
          exact absurd (h ▸ hpk) ha
        · rw [List.find?_cons_of_neg _ (by simpa using hpa)] at h
          rw [List.find?_cons_of_neg _ (by simpa using hpa)]
          exact ih h

/-- Two predicates that agree on every element of a list give the same
`find?` result. -/
theorem find?_congr_mem {α : Type} {l : List α} {p q : α → Bool}
    (h : ∀ v ∈ l, p v = q v) : l.find? p = l.find? q := by
  induction l with
  | nil => rfl
  | cons a t ih =>
      have ha := h a (by simp)
      by_cases hpa : p a = true
      · rw [List.find?_cons_of_pos _ hpa, List.find?_cons_of_pos _ (ha ▸ hpa)]
      · rw [List.find?_cons_of_neg _ (by simpa using hpa),
            List.find?_cons_of_neg _ (by simp [← ha, hpa])]
        exact ih fun v hv => h v (by simp [hv])

/-- Unfolding of `requestSignup` when validation fails: the error is
surfaced and the store is untouched. -/
theorem requestSignup_error (dflt : Bool) (now : Nat) (store : Store)
    (username email : String) (e : ApiError)
    (hval : UserSignupSerializer.validate store username email = .error e) :
    requestSignup dflt now store username email = (.error e, store) := by
  unfold requestSignup
  rw [hval]

/-- Unfolding of `requestSignup` on the reuse path: validation passed and
`get_or_create` found the row `v`; the saved row is `v` with `is_active`
forced to `true`, and the fresh code is bound to that saved row. -/
theorem requestSignup_ok_found (dflt : Bool) (now : Nat) (store : Store)
    (username email : String) (v : UserRec)
    (hval : UserSignupSerializer.validate store username email = .ok ())
    (hgc : store.users.find? (fun w => w.username == username && w.email == email) =
      some v) :
    requestSignup dflt now store username email =
      (.ok ({ status := 200, body := [("username", v.username), ("email", v.email)] },
            make_token { v with isActive := true } now),
       { saveUser store { v with isActive := true } with
         outbox := store.outbox ++
           [(v.email, make_token { v with isActive := true } now)] }) := by
  unfold requestSignup get_or_create
  rw [hval, hgc]
  rfl

/-- Unfolding of `requestSignup` on the create path: validation passed and
`get_or_create` found nothing; the fresh row (whose `is_active` is the model
default) is appended and then saved, and the code is bound to it. -/
theorem requestSignup_ok_created (dflt : Bool) (now : Nat) (store : Store)
    (username email : String)
    (hval : UserSignupSerializer.validate store username email = .ok ())
    (hgc : store.users.find? (fun w => w.username == username && w.email == email) =
      none) :
    requestSignup dflt now store username email =
      (.ok ({ status := 200, body := [("username", username), ("email", email)] },
            make_token (freshUser dflt store username email) now),
       { store with
         users := (store.users ++ [freshUser dflt store username email]).map
           (fun w => if w.pk == (freshUser dflt store username email).pk
              then freshUser dflt store username email else w),
         nextUserPk := store.nextUserPk + 1,
         outbox := store.outbox ++
           [(email, make_token (freshUser dflt store username email) now)] }) := by
  unfold requestSignup get_or_create saveUser
  rw [hval, hgc]
  rfl

/-- After any successful signup there is a saved row `u1` such that the
issued code is bound to `u1`'s hash state, and `u1` is what both the
username lookup of the token endpoint and the exact-pair lookup of
`get_or_create` find in the new store.  (Validation guarantees no row
carries the username with a different email, so the two lookups agree.) -/
theorem signup_ok_finds {dflt : Bool} {t : Nat} {store : Store}
    {username email : String} {r : SignupResponse} {c : ConfirmationCode}
    {s' : Store}
    (h : requestSignup dflt t store username email = (.ok (r, c), s')) :
    ∃ u1 : UserRec,
      c = make_token u1 t ∧
      s'.users.find? (fun w => w.username == username) = some u1 ∧
      s'.users.find? (fun w => w.username == username && w.email == email) =
        some u1 := by
  cases hval : UserSignupSerializer.validate store username email with
  | error e =>
      rw [requestSignup_error dflt t store username email e hval] at h
      exact absurd h (by simp)
  | ok a =>
      obtain ⟨hme, hem, hun⟩ := (validate_ok_iff store username email).mp hval
      have hPQ : ∀ w ∈ store.users,
          (w.username == username) = (w.username == username && w.email == email) := by
        intro w hw
        by_cases hwu : w.username = username
        · simp [hwu, hun w hw hwu]
        · simp [hwu]
      cases hgc : store.users.find?
          (fun w => w.username == username && w.email == email) with
      | some v =>
          have hpred := List.find?_some hgc
          simp only [Bool.and_eq_true, beq_iff_eq] at hpred
          obtain ⟨hvu, hve⟩ := hpred
          rw [requestSignup_ok_found dflt t store username email v hval hgc] at h
          simp only [Prod.mk.injEq, Except.ok.injEq] at h
          obtain ⟨⟨hr, hc⟩, hs⟩ := h
          refine ⟨{ v with isActive := true }, hc.symm, ?_, ?_⟩
          · rw [← hs]
            have hPstore : store.users.find? (fun w => w.username == username) =
                some v := by
              rw [find?_congr_mem hPQ, hgc]
            exact find?_map_replace hPstore rfl (by simp [hvu])
          · rw [← hs]
            exact find?_map_replace hgc rfl (by simp [hvu, hve])
      | none =>
          rw [requestSignup_ok_created dflt t store username email hval hgc] at h
          simp only [Prod.mk.injEq, Except.ok.injEq] at h
          obtain ⟨⟨hr, hc⟩, hs⟩ := h
          refine ⟨freshUser dflt store username email, hc.symm, ?_, ?_⟩
          · rw [← hs]
            have hPstore : store.users.find? (fun w => w.username == username) =
                none := by
              rw [find?_congr_mem hPQ, hgc]
            have happ : (store.users ++ [freshUser dflt store username email]).find?
                (fun w => w.username == username) =
                some (freshUser dflt store username email) := by
              rw [List.find?_append, hPstore]
              simp [freshUser]
            exact find?_map_replace happ rfl (by simp [freshUser])
          · rw [← hs]
            have happ : (store.users ++ [freshUser dflt store username email]).find?
                (fun w => w.username == username && w.email == email) =
                some (freshUser dflt store username email) := by
              rw [List.find?_append, hgc]
              simp [freshUser]
            exact find?_map_replace happ rfl (by simp [freshUser])

/-! ## Claims -/

/-- C1: for every email (and every store, default flag and clock), signup
with username `"me"` fails with a `ValidationError` and the store — hence
every user record — is unchanged. -/
theorem signup_me_always_rejected (dflt : Bool) (now : Nat) (store : Store)
    (email : String) :
    requestSignup dflt now store "me" email =
      (.error (.ValidationError "Нельзя создать пользователя me!"), store) := by
  simp [requestSignup, UserSignupSerializer.validate]

/-- C2: if some existing user has the requested email under a different
username, or the requested username under a different email, signup fails
with a `ValidationError` and the store is unchanged. -/
theorem signup_conflict_rejected (dflt : Bool) (now : Nat) (store : Store)
    (username email : String)
    (h : ∃ v ∈ store.users,
          (v.email = email ∧ v.username ≠ username) ∨
          (v.username = username ∧ v.email ≠ email)) :
    ∃ msg, requestSignup dflt now store username email =
      (.error (.ValidationError msg), store) := by
  obtain ⟨msg, hv⟩ := validate_error_of_conflict store username email h
  exact ⟨msg, by simp [requestSignup, hv]⟩

/-- Witness for C2: a concrete store in which `"bob"` requests signup with
`"alice"`'s email. -/
theorem signup_conflict_rejected_witness :
    ∃ msg, requestSignup true 0 sampleStore "bob" "a@x.com" =
      (.error (.ValidationError msg), sampleStore) :=
  signup_conflict_rejected true 0 sampleStore "bob" "a@x.com"
    ⟨sampleUser, by decide, by decide⟩

/-- C5: the username lookup is decided before the code check — a missing
username yields `NotFound` (never `ValidationError`) with the store
untouched, and an existing username with a non-verifying code yields
`ValidationError` with the store untouched. -/
theorem exchange_lookup_then_code (now : Nat) (store : Store)
    (username : String) (code : ConfirmationCode) :
    ((∀ v ∈ store.users, v.username ≠ username) →
      exchangeCode now store username code = (.error .NotFound, store)) ∧
    (∀ u, store.users.find? (fun v => v.username == username) = some u →
      check_token u code now = false →
      exchangeCode now store username code =
        (.error (.ValidationError "Некорректный confirmation_code!"), store)) := by
  constructor
  · intro h
    have hnone : store.users.find? (fun v => v.username == username) = none :=
      List.find?_eq_none.mpr fun v hv => by simpa using h v hv
    simp [exchangeCode, hnone]
  · intro u hfind hchk
    simp [exchangeCode, hfind, hchk]

/-- Witness for C5: a lookup for an absent `"nobody"` gives `NotFound`; a
bad code for the present `"alice"` gives `ValidationError`. -/
theorem exchange_lookup_then_code_witness :
    exchangeCode 0 sampleStore "nobody" badCode = (.error .NotFound, sampleStore) ∧
    exchangeCode 0 sampleStore "alice" badCode =
      (.error (.ValidationError "Некорректный confirmation_code!"), sampleStore) :=
  ⟨(exchange_lookup_then_code 0 sampleStore "nobody" badCode).1 (by decide),
   (exchange_lookup_then_code 0 sampleStore "alice" badCode).2 sampleUser
     (by decide) (by decide)⟩

/-- Counterexample for C6: a successful exchange — `"alice"` submits the
code just issued to her — answers with HTTP status `201`, not the claimed
`200` (`UserTokenView` inherits `CreateAPIView.create`, which responds
`HTTP_201_CREATED`; only the signup view overrides the status). -/
theorem token_success_status_201_cex :
    (exchangeCode 0 sampleStore "alice" (make_token sampleUser 0)).1 =
      .ok { status := 201, username := "alice", confirmation_code := "",
            token := ⟨1⟩ } ∧ ¬ (201 : Nat) = 200 := by decide

/-- C6 (amended): every successful exchange answers with HTTP status `201`,
echoes the username, and carries an access token whose embedded identity
(`user_id` claim) is the pk of the stored user with the supplied
username. -/
theorem token_success_response_fields (now : Nat) (store : Store)
    (username : String) (code : ConfirmationCode) (u : UserRec)
    (hfind : store.users.find? (fun v => v.username == username) = some u)
    (hchk : check_token u code now = true) :
    exchangeCode now store username code =
      (.ok { status := 201, username := username,
             confirmation_code := u.confirmation_code,
             token := UserTokenSerializer.get_token u }, store) := by
  have hu : u.username = username := by simpa using List.find?_some hfind
  simp [exchangeCode, hfind, hchk, hu]

/-- Witness for C6: `"alice"` exchanges her freshly issued code. -/
theorem token_success_response_fields_witness :
    exchangeCode 3 sampleStore "alice" (make_token sampleUser 0) =
      (.ok { status := 201, username := "alice", confirmation_code := "",
             token := UserTokenSerializer.get_token sampleUser }, sampleStore) :=
  token_success_response_fields 3 sampleStore "alice" (make_token sampleUser 0)
    sampleUser (by decide) (by decide)

/-- C9: exchange never mutates the store, and a code that verified once
keeps verifying: any later exchange of the same code for the same username
within the `PASSWORD_RESET_TIMEOUT` age window returns the same successful
response. -/
theorem exchange_is_pure_and_reusable (now : Nat) (store : Store)
    (username : String) (code : ConfirmationCode) :
    (exchangeCode now store username code).2 = store ∧
    (∀ resp, (exchangeCode now store username code).1 = .ok resp →
      ∀ later : Nat, later - code.ts ≤ PASSWORD_RESET_TIMEOUT →
        (exchangeCode later store username code).1 = .ok resp) := by
  constructor
  · unfold exchangeCode
    split
    · rfl
    · split
      · rfl
      · rfl
  · intro resp hresp later hage
    unfold exchangeCode at hresp ⊢
    split at hresp
    · exact absurd hresp (by simp)
    · rename_i u hfind
      split at hresp
      · rename_i hchk
        have hchk2 : check_token u code later = true := by
          unfold check_token at hchk ⊢
          simp only [Bool.and_eq_true] at hchk ⊢
          exact ⟨hchk.1, by simpa using hage⟩
        rw [if_pos hchk2]
        exact hresp
      · exact absurd hresp (by simp)

/-- Witness for C9: `"alice"`'s code, issued at time 0 and already
exchanged at time 0, is accepted again at time 100. -/
theorem exchange_is_pure_and_reusable_witness :
    (exchangeCode 0 sampleStore "alice" (make_token sampleUser 0)).2 = sampleStore ∧
    (exchangeCode 100 sampleStore "alice" (make_token sampleUser 0)).1 =
      .ok { status := 201, username := "alice", confirmation_code := "",
            token := ⟨1⟩ } :=
  ⟨(exchange_is_pure_and_reusable 0 sampleStore "alice" (make_token sampleUser 0)).1,
   (exchange_is_pure_and_reusable 0 sampleStore "alice" (make_token sampleUser 0)).2
     { status := 201, username := "alice", confirmation_code := "", token := ⟨1⟩ }
     (by decide) 100 (by decide)⟩

/-- C8: if a review by the same author on the same title already exists,
posting another one fails with `ValidationError` and the store — hence the
review table — is unchanged. -/
theorem second_review_rejected (store : Store) (titleId authorPk : Nat)
    (text : String) (score : Nat)
    (h : ∃ r ∈ store.reviews, r.title = titleId ∧ r.author = authorPk) :
    createReview store titleId authorPk text score =
      (.error (.ValidationError "Вы уже оставляли отзыв на это произведение."), store) := by
  obtain ⟨r, hr, ht, ha⟩ := h
  unfold createReview
  rw [if_pos]
  exact List.any_eq_true.mpr ⟨r, hr, by simp [ht, ha]⟩

/-- Witness for C8: `"alice"` posts a second review on title 5. -/
theorem second_review_rejected_witness :
    createReview reviewedStore 5 1 "again" 9 =
      (.error (.ValidationError "Вы уже оставляли отзыв на это произведение."), reviewedStore) :=
  second_review_rejected reviewedStore 5 1 "again" 9
    ⟨⟨1, 5, 1, "good", 8⟩, by decide, by decide, by decide⟩


/-- Counterexample for C3: in a store whose only user is named `"me"` (a
row the signup flow never creates, but the admin user-management endpoint
can), re-signup with that user's exact `(username, email)` pair does not
succeed with 200 — the reserved-name check fires first and answers with a
`ValidationError`. -/
theorem resignup_me_user_fails_cex :
    meUser ∈ meStore.users ∧
    (requestSignup true 0 meStore meUser.username meUser.email).1 =
      .error (.ValidationError "Нельзя создать пользователя me!") := by decide

/-- C3 (amended): for every existing user whose username is not the
reserved `"me"` and whose email and username are not shared with any other
record (the uniqueness the store schema enforces), signup with the exact
`(username, email)` pair succeeds with status 200, the body is exactly the
username and email, and no new user is created (the user count is
unchanged). -/
theorem resignup_exact_pair_succeeds (dflt : Bool) (now : Nat) (store : Store)
    (u : UserRec) (hmem : u ∈ store.users) (hme : u.username ≠ "me")
    (hemail : ∀ v ∈ store.users, v.email = u.email → v.username = u.username)
    (husername : ∀ v ∈ store.users, v.username = u.username → v.email = u.email) :
    ∃ code store',
      requestSignup dflt now store u.username u.email =
        (.ok ({ status := 200,
                body := [("username", u.username), ("email", u.email)] }, code),
         store') ∧
      store'.users.length = store.users.length := by
  have hval : UserSignupSerializer.validate store u.username u.email = .ok () :=
    (validate_ok_iff store u.username u.email).mpr ⟨hme, hemail, husername⟩
  cases hgc : store.users.find? (fun w => w.username == u.username && w.email == u.email) with
  | none =>
      exact absurd (by simp : ((u.username == u.username && u.email == u.email) = true))
        (List.find?_eq_none.mp hgc u hmem)
  | some v =>
      have hpred := List.find?_some hgc
      simp only [Bool.and_eq_true, beq_iff_eq] at hpred
      obtain ⟨hvu, hve⟩ := hpred
      rw [requestSignup_ok_found dflt now store u.username u.email v hval hgc]
      refine ⟨make_token { v with isActive := true } now,
              { saveUser store { v with isActive := true } with
                outbox := store.outbox ++
                  [(v.email, make_token { v with isActive := true } now)] }, ?_, ?_⟩
      · rw [hvu, hve]
      · simp [saveUser]

/-- Witness for C3: `"alice"` re-signs up with her exact pair. -/
theorem resignup_exact_pair_succeeds_witness :
    ∃ code store',
      requestSignup true 0 sampleStore sampleUser.username sampleUser.email =
        (.ok ({ status := 200,
                body := [("username", sampleUser.username),
                         ("email", sampleUser.email)] }, code),
         store') ∧
      store'.users.length = sampleStore.users.length :=
  resignup_exact_pair_succeeds true 0 sampleStore sampleUser (by decide) (by decide)
    (by decide) (by decide)

/-- C7: the signup response (status and body) is the same function of the
store and the submitted `(username, email)` whatever the clock — hence
whatever confirmation code — the run generates, and on success the body
holds exactly the two fields `username` and `email` (the code appears
nowhere in it). -/
theorem signup_response_independent_of_code (dflt : Bool) (now1 now2 : Nat)
    (store : Store) (username email : String) :
    (requestSignup dflt now1 store username email).1.map Prod.fst =
      (requestSignup dflt now2 store username email).1.map Prod.fst ∧
    (∀ resp code store',
      requestSignup dflt now1 store username email = (.ok (resp, code), store') →
      resp = { status := 200, body := [("username", username), ("email", email)] }) := by
  cases hval : UserSignupSerializer.validate store username email with
  | error e =>
      rw [requestSignup_error dflt now1 store username email e hval,
          requestSignup_error dflt now2 store username email e hval]
      exact ⟨rfl, fun resp code store' h => absurd h (by simp)⟩
  | ok a =>
      cases hgc : store.users.find? (fun w => w.username == username && w.email == email) with
      | some v =>
          have hpred := List.find?_some hgc
          simp only [Bool.and_eq_true, beq_iff_eq] at hpred
          obtain ⟨hvu, hve⟩ := hpred
          rw [requestSignup_ok_found dflt now1 store username email v hval hgc,
              requestSignup_ok_found dflt now2 store username email v hval hgc]
          refine ⟨rfl, ?_⟩
          intro resp code store' h
          simp only [Prod.mk.injEq, Except.ok.injEq] at h
          rw [← h.1.1, hvu, hve]
      | none =>
          rw [requestSignup_ok_created dflt now1 store username email hval hgc,
              requestSignup_ok_created dflt now2 store username email hval hgc]
          refine ⟨rfl, ?_⟩
          intro resp code store' h
          simp only [Prod.mk.injEq, Except.ok.injEq] at h
          exact h.1.1.symm

/-- Witness for C7: the response of `"alice"`'s signup at clock 0 equals
the one at clock 99, and the successful body is exactly her username and
email. -/
theorem signup_response_independent_of_code_witness :
    (requestSignup true 0 sampleStore "alice" "a@x.com").1.map Prod.fst =
      (requestSignup true 99 sampleStore "alice" "a@x.com").1.map Prod.fst ∧
    ({ status := 200, body := [("username", "alice"), ("email", "a@x.com")] }
        : SignupResponse) =
      { status := 200, body := [("username", "alice"), ("email", "a@x.com")] } :=
  ⟨(signup_response_independent_of_code true 0 99 sampleStore "alice" "a@x.com").1,
   (signup_response_independent_of_code true 0 99 sampleStore "alice" "a@x.com").2
     { status := 200, body := [("username", "alice"), ("email", "a@x.com")] }
     (make_token sampleUser 0) storeAfterFirstSignup (by decide)⟩

/-- C10: on a successful signup, if `get_or_create` reused the row `v`,
the stored table is the old one with `v` rewritten to `v` with
`is_active := true` (re-signup reactivates); if it created a row, the
stored table ends with the fresh row, whose `is_active` is the model
default `dflt`. -/
theorem resignup_reactivates_and_fresh_keeps_default (dflt : Bool) (now : Nat)
    (store : Store) (username email : String) :
    (∀ v, store.users.find? (fun w => w.username == username && w.email == email) =
        some v →
      ∀ z store', requestSignup dflt now store username email = (.ok z, store') →
        store'.users = store.users.map
          (fun w => if w.pk == v.pk then { v with isActive := true } else w)) ∧
    (store.users.find? (fun w => w.username == username && w.email == email) = none →
      ∀ z store', requestSignup dflt now store username email = (.ok z, store') →
        store'.users = (store.users ++ [freshUser dflt store username email]).map
          (fun w => if w.pk == (freshUser dflt store username email).pk
            then freshUser dflt store username email else w) ∧
        store'.users.getLast? = some (freshUser dflt store username email)) := by
  constructor
  · intro v hgc z store' hok
    cases hval : UserSignupSerializer.validate store username email with
    | error e =>
        rw [requestSignup_error dflt now store username email e hval] at hok
        exact absurd hok (by simp)
    | ok a =>
        rw [requestSignup_ok_found dflt now store username email v hval hgc] at hok
        simp only [Prod.mk.injEq] at hok
        rw [← hok.2]
        rfl
  · intro hgc z store' hok
    cases hval : UserSignupSerializer.validate store username email with
    | error e =>
        rw [requestSignup_error dflt now store username email e hval] at hok
        exact absurd hok (by simp)
    | ok a =>
        rw [requestSignup_ok_created dflt now store username email hval hgc] at hok
        simp only [Prod.mk.injEq] at hok
        rw [← hok.2]
        refine ⟨rfl, ?_⟩
        simp [List.map_append, List.getLast?_concat]

/-- Witness for C10: the deactivated `"alice"` is reactivated by re-signup,
and a fresh `"bob"` row is appended with the default activation flag. -/
theorem resignup_reactivates_and_fresh_keeps_default_witness :
    reactivatedStore.users = inactiveStore.users.map
      (fun w => if w.pk == inactiveUser.pk
        then { inactiveUser with isActive := true } else w) ∧
    (createdStore.users =
        (sampleStore.users ++ [freshUser true sampleStore "bob" "b@x.com"]).map
          (fun w => if w.pk == (freshUser true sampleStore "bob" "b@x.com").pk
            then freshUser true sampleStore "bob" "b@x.com" else w) ∧
      createdStore.users.getLast? =
        some (freshUser true sampleStore "bob" "b@x.com")) :=
  ⟨(resignup_reactivates_and_fresh_keeps_default true 0 inactiveStore
      "alice" "a@x.com").1 inactiveUser (by decide)
     ({ status := 200, body := [("username", "alice"), ("email", "a@x.com")] },
      make_token sampleUser 0) reactivatedStore (by decide),
   (resignup_reactivates_and_fresh_keeps_default true 0 sampleStore
      "bob" "b@x.com").2 (by decide)
     ({ status := 200, body := [("username", "bob"), ("email", "b@x.com")] },
      make_token (freshUser true sampleStore "bob" "b@x.com") 0)
     createdStore (by decide)⟩


/-- Counterexample for C4: `"alice"` signs up at time 0 (issuing one code)
and again at time 5 (issuing another); the code of the *first* signup still
passes the token exchange after the second signup — the earlier code is not
invalidated. -/
theorem resignup_keeps_old_code_cex :
    (requestSignup true 0 sampleStore "alice" "a@x.com").1 =
      .ok ({ status := 200, body := [("username", "alice"), ("email", "a@x.com")] },
           make_token sampleUser 0) ∧
    (requestSignup true 5 storeAfterFirstSignup "alice" "a@x.com").1 =
      .ok ({ status := 200, body := [("username", "alice"), ("email", "a@x.com")] },
           make_token sampleUser 5) ∧
    make_token sampleUser 5 ≠ make_token sampleUser 0 ∧
    (exchangeCode 5 storeAfterSecondSignup "alice" (make_token sampleUser 0)).1 =
      .ok { status := 201, username := "alice", confirmation_code := "",
            token := UserTokenSerializer.get_token sampleUser } ∧
    (exchangeCode 5 storeAfterSecondSignup "alice" (make_token sampleUser 5)).1 =
      .ok { status := 201, username := "alice", confirmation_code := "",
            token := UserTokenSerializer.get_token sampleUser } := by decide

/-- C4 (amended): after a second successful signup for the same
`(username, email)`, both the newly issued code and the code issued by the
*earlier* signup pass the token exchange, each provided only that it is
within the `PASSWORD_RESET_TIMEOUT` age window: the generator is stateless
and signup changes no field the code's MAC is bound to, so re-signup issues
a fresh code without invalidating previous ones. -/
theorem resignup_old_code_still_verifies
    (dflt : Bool) (t1 t2 tEx : Nat) (store : Store) (username email : String)
    (r1 r2 : SignupResponse) (c1 c2 : ConfirmationCode) (s1 s2 : Store)
    (h1 : requestSignup dflt t1 store username email = (.ok (r1, c1), s1))
    (h2 : requestSignup dflt t2 s1 username email = (.ok (r2, c2), s2))
    (hage1 : tEx - c1.ts ≤ PASSWORD_RESET_TIMEOUT)
    (hage2 : tEx - c2.ts ≤ PASSWORD_RESET_TIMEOUT) :
    (∃ resp, (exchangeCode tEx s2 username c1).1 = .ok resp) ∧
    (∃ resp, (exchangeCode tEx s2 username c2).1 = .ok resp) := by
  constructor
  · obtain ⟨u1, hc1, hP1, hQ1⟩ := signup_ok_finds h1
    cases hval2 : UserSignupSerializer.validate s1 username email with
    | error e =>
        rw [requestSignup_error dflt t2 s1 username email e hval2] at h2
        exact absurd h2 (by simp)
    | ok a =>
        rw [requestSignup_ok_found dflt t2 s1 username email u1 hval2 hQ1] at h2
        simp only [Prod.mk.injEq, Except.ok.injEq] at h2
        obtain ⟨-, hs2⟩ := h2
        have hname : (u1.username == username) = true := by
          have h := List.find?_some hP1
          simpa using h
        have hP2 : s2.users.find? (fun w => w.username == username) =
            some { u1 with isActive := true } := by
          rw [← hs2]
          exact find?_map_replace hP1 rfl (by simpa using hname)
        have hchk : check_token { u1 with isActive := true } c1 tEx = true := by
          subst hc1
          simp only [make_token] at hage1
          simp [check_token, make_token, hashStateOf, hage1]
        exact ⟨{ status := 201,
                 username := ({ u1 with isActive := true } : UserRec).username,
                 confirmation_code :=
                   ({ u1 with isActive := true } : UserRec).confirmation_code,
                 token := UserTokenSerializer.get_token { u1 with isActive := true } },
               by simp [exchangeCode, hP2, hchk]⟩
  · obtain ⟨w1, hc2, hPw, hQw⟩ := signup_ok_finds h2
    have hchk2 : check_token w1 c2 tEx = true := by
      subst hc2
      simp only [make_token] at hage2
      simp [check_token, make_token, hashStateOf, hage2]
    exact ⟨{ status := 201, username := w1.username,
             confirmation_code := w1.confirmation_code,
             token := UserTokenSerializer.get_token w1 },
           by simp [exchangeCode, hPw, hchk2]⟩

/-- Witness for C4: the concrete two-signup scenario of the counterexample,
routed through the general theorem. -/
theorem resignup_old_code_still_verifies_witness :
    (∃ resp, (exchangeCode 5 storeAfterSecondSignup "alice"
      (make_token sampleUser 0)).1 = .ok resp) ∧
    (∃ resp, (exchangeCode 5 storeAfterSecondSignup "alice"
      (make_token sampleUser 5)).1 = .ok resp) :=
  resignup_old_code_still_verifies true 0 5 5 sampleStore "alice" "a@x.com"
    { status := 200, body := [("username", "alice"), ("email", "a@x.com")] }
    { status := 200, body := [("username", "alice"), ("email", "a@x.com")] }
    (make_token sampleUser 0) (make_token sampleUser 5)
    storeAfterFirstSignup storeAfterSecondSignup
    (by decide) (by decide) (by decide) (by decide)
